import Mathlib

/-
Shallow embedding of the username-scanning engine of src/app.py.

The embedded core is:
  - fetch (src/app.py lines 42-66): one HTTP probe for one (site, username)
    pair, classifying the response by the site's errorType rule and
    returning either a result record or None; transport failures are
    swallowed by the bare except.
  - run_username_search (src/app.py lines 68-89): fans one fetch task per
    catalog entry out over asyncio.as_completed with an
    aiohttp.TCPConnector (limit = MAX_CONCURRENT_REQUESTS = 20), collects
    truthy results in completion order, and throttles progress updates to
    every tenth completion.

Python strings are modelled as Lean String; the Python membership test
marker in text is modelled as substring containment on the underlying
character lists.  Wall-clock instants are modelled by two timestamps
carried on each response: elapsed milliseconds when session.get returns
(headers received) and elapsed milliseconds when response.text() finishes
(full body read).  The network is an explicit oracle mapping each URL to
either a response or a transport failure.
-/

/-- One field of a Python str.format template, as used for
site_data["url"].format(username) on line 43 of src/app.py: a literal
piece, an automatically numbered placeholder, an explicitly numbered
placeholder, or a named placeholder. -/
inductive TmplPiece where
  | lit (s : String)
  | auto
  | positional (i : Nat)
  | named (s : String)
deriving DecidableEq, Repr

/-- Python str.format with a single positional argument, over a parsed
template.  The accumulator k counts automatically numbered fields already
used; ua / um record whether automatic respectively manual numbering has
been used (Python raises ValueError on mixing them).  An automatic field
beyond the first and an explicit index other than 0 raise IndexError; a
named field raises KeyError.  Any raise is modelled as Except.error. -/
def formatPieces : List TmplPiece → String → Nat → Bool → Bool → Except Unit String
  | [], _, _, _, _ => Except.ok ""
  | TmplPiece.lit s :: rest, arg, k, ua, um =>
      Except.map (fun t => s ++ t) (formatPieces rest arg k ua um)
  | TmplPiece.auto :: rest, arg, k, _, um =>
      if um then Except.error ()
      else if k = 0 then Except.map (fun t => arg ++ t) (formatPieces rest arg 1 true um)
      else Except.error ()
  | TmplPiece.positional i :: rest, arg, k, ua, _ =>
      if ua then Except.error ()
      else if i = 0 then Except.map (fun t => arg ++ t) (formatPieces rest arg k ua true)
      else Except.error ()
  | TmplPiece.named _ :: _, _, _, _, _ => Except.error ()

/-- Line 43 of src/app.py: url = site_data["url"].format(username).
Returns the built URL, or Except.error when str.format raises.  Note this
line sits outside the try block of fetch. -/
def buildUrl (tmpl : List TmplPiece) (username : String) : Except Unit String :=
  formatPieces tmpl username 0 false false

/-- Boolean test that the first list is an initial segment of the second. -/
def charsStart : List Char → List Char → Bool
  | [], _ => true
  | _ :: _, [] => false
  | a :: as, b :: bs => a == b && charsStart as bs

/-- Boolean substring containment: pat occurs contiguously inside text.
This is the Python membership test pat in text for strings. -/
def hasSubstring : List Char → List Char → Bool
  | pat, [] => charsStart pat []
  | pat, c :: rest => charsStart pat (c :: rest) || hasSubstring pat rest

/-- One catalog entry's fields as read by fetch: the url template
(site_data["url"], assumed present — its absence would be a KeyError on
line 43), the optional errorType discriminator (site_data.get("errorType"),
line 44) and the optional errorMsg marker (site_data.get("errorMsg"),
line 58). -/
structure SiteData where
  url : List TmplPiece
  errorType : Option String
  errorMsg : Option String
deriving DecidableEq, Repr

/-- A completed HTTP exchange as observed inside the async with block of
fetch: final status after redirects (line 50), decoded body text
(line 51), the string form of response.url after redirects (line 60), and
the two elapsed wall-clock marks relevant to line 49: headersAtMillis is
the elapsed time when session.get returns (response headers received,
where line 49 computes latency) and bodyDoneAtMillis is the elapsed time
when await response.text() on line 51 completes (full body read). -/
structure HttpResponse where
  status : Nat
  text : String
  finalUrl : String
  headersAtMillis : Nat
  bodyDoneAtMillis : Nat
deriving DecidableEq, Repr

/-- Result of attempting the HTTP exchange for one URL: a full response,
or any network-level raise (timeout, connection refused or reset, TLS
failure, invalid URL, redirect loop, malformed or undecodable response) —
everything the bare except on line 64 would catch. -/
inductive TransportResult where
  | ok (resp : HttpResponse)
  | fail
deriving DecidableEq, Repr

/-- The record built on line 63 of src/app.py for a positive hit: the
site name, the built URL, and the latency value computed on line 49 (the
source formats it as a millisecond string; the numeric value is kept). -/
structure FoundRecord where
  site : String
  url : String
  latencyMillis : Nat
deriving DecidableEq, Repr

/-- The four ways one execution of fetch can end, tagged by source path:
raised — an exception escaped fetch (only possible from line 43, which is
outside the try block); found — the record of line 63 was returned;
notFound — control fell through to return None on line 66 with exists
still False; error — the bare except on lines 64-65 swallowed a raise and
None was returned.  The source's return value only distinguishes found
from the rest; the tags record which path produced it. -/
inductive ProbeOutcome where
  | raised
  | found (r : FoundRecord)
  | notFound
  | error
deriving DecidableEq, Repr

/-- Lines 53-60 of src/app.py: compute the exists flag from the errorType
rule.  Except.error models the TypeError raised on line 58 when
site_data.get("errorMsg") is None (None not in text raises); that raise is
inside the try block, so fetch swallows it. -/
def classify (d : SiteData) (url : String) (resp : HttpResponse) : Except Unit Bool :=
  if d.errorType = some "status_code" then
    Except.ok (decide (resp.status ≠ 404))
  else if d.errorType = some "message" then
    match d.errorMsg with
    | some m => Except.ok (!(hasSubstring m.data resp.text.data))
    | none => Except.error ()
  else if d.errorType = some "response_url" then
    Except.ok (decide (resp.finalUrl = url))
  else
    Except.ok false

/-- Instrumented semantics of fetch (src/app.py lines 42-66) against a
transport oracle: build the URL (line 43, outside the try, so a format
raise escapes as ProbeOutcome.raised); issue the request (line 48, any
transport raise is swallowed to ProbeOutcome.error); classify (lines
53-60, a classification raise is likewise swallowed); return the record
of line 63 when exists is True, else fall through to None (line 66). -/
def fetchOutcome (transport : String → TransportResult) (siteName : String)
    (d : SiteData) (username : String) : ProbeOutcome :=
  match buildUrl d.url username with
  | Except.error _ => ProbeOutcome.raised
  | Except.ok url =>
    match transport url with
    | TransportResult.fail => ProbeOutcome.error
    | TransportResult.ok resp =>
      match classify d url resp with
      | Except.error _ => ProbeOutcome.error
      | Except.ok true => ProbeOutcome.found ⟨siteName, url, resp.headersAtMillis⟩
      | Except.ok false => ProbeOutcome.notFound

/-- The public value of one fetch call: Except.error when an exception
propagates to the awaiting caller, otherwise the returned Python value —
some record (line 63) or none (line 66).  NotFound, swallowed transport
errors and swallowed classification errors all surface as none. -/
def fetch (transport : String → TransportResult) (siteName : String)
    (d : SiteData) (username : String) : Except Unit (Option FoundRecord) :=
  match fetchOutcome transport siteName d username with
  | ProbeOutcome.raised => Except.error ()
  | ProbeOutcome.found r => Except.ok (some r)
  | ProbeOutcome.notFound => Except.ok none
  | ProbeOutcome.error => Except.ok none

/-- The URLs fetch actually requests over the network: session.get on
line 48 is reached exactly when line 43 built a URL, regardless of what
the transport then does. -/
def requestsMade (d : SiteData) (username : String) : List String :=
  match buildUrl d.url username with
  | Except.error _ => []
  | Except.ok u => [u]

/-- The collection loop of run_username_search (lines 79-81): consume
outcomes in completion order; a raised outcome propagates out of the
await on line 80 and the whole call fails (partial results are lost); a
found record is appended; None is skipped. -/
def collectLoop : List ProbeOutcome → Except Unit (List FoundRecord)
  | [] => Except.ok []
  | ProbeOutcome.raised :: _ => Except.error ()
  | ProbeOutcome.found r :: rest =>
      match collectLoop rest with
      | Except.ok l => Except.ok (r :: l)
      | Except.error e => Except.error e
  | ProbeOutcome.notFound :: rest => collectLoop rest
  | ProbeOutcome.error :: rest => collectLoop rest

/-- Value semantics of run_username_search (src/app.py lines 68-89),
parameterised by the completion-ordered sequence of (name, descriptor)
pairs: asyncio.as_completed yields the fetch results in completion order,
which is some permutation of the catalog built on line 72. -/
def run_username_search (transport : String → TransportResult) (username : String)
    (completionSeq : List (String × SiteData)) : Except Unit (List FoundRecord) :=
  collectLoop (completionSeq.map (fun p => fetchOutcome transport p.1 p.2 username))

/-- Projection used to state which outcomes reach the result list. -/
def foundRecordOf : ProbeOutcome → Option FoundRecord
  | ProbeOutcome.found r => some r
  | _ => none

/-- Boolean test for a Found outcome. -/
def isFoundOutcome : ProbeOutcome → Bool
  | ProbeOutcome.found _ => true
  | _ => false

/-- Progress snapshots emitted by the loop of run_username_search (lines
76-85): completed counts up from 1 to total, and lines 83-85 emit the
pair (completed, total) exactly when completed is a positive multiple of
10.  The progress.empty() call on line 87 clears the widget and emits no
snapshot. -/
def progressSnapshots (total : Nat) : List (Nat × Nat) :=
  (List.range total).filterMap
    (fun k => if (k + 1) % 10 = 0 then some (k + 1, total) else none)

/-- Scheduling events of one scan: a probe task starting, or a probe task
finishing. -/
inductive DispatchEvent where
  | spawn
  | complete
deriving DecidableEq, Repr

/-- Concurrency-relevant configuration and event trace of one scan. -/
structure DispatcherModel where
  connectorLimit : Nat
  events : List DispatchEvent
deriving DecidableEq, Repr

/-- Running maximum of admitted-but-not-completed tasks along a trace:
cur is the current in-flight count, best the maximum seen so far. -/
def maxInflightAux : List DispatchEvent → Nat → Nat → Nat
  | [], _, best => best
  | DispatchEvent.spawn :: rest, cur, best =>
      maxInflightAux rest (cur + 1) (max best (cur + 1))
  | DispatchEvent.complete :: rest, cur, best =>
      maxInflightAux rest (cur - 1) best

/-- Peak number of simultaneously in-flight tasks over a trace. -/
def maxInflight (evs : List DispatchEvent) : Nat := maxInflightAux evs 0 0

/-- Scheduling model of run_username_search (lines 70-80): the
concurrency limit is passed only to aiohttp.TCPConnector on line 70 (it
caps simultaneous transport connections, not task admission); line 72
builds one coroutine per catalog entry and asyncio.as_completed on line
79 wraps every one of them into a scheduled task before the loop first
awaits, so all probes are admitted before any completes; completions then
drain one at a time. -/
def scheduleModel (catalogSize limit : Nat) : DispatcherModel :=
  ⟨limit, List.replicate catalogSize DispatchEvent.spawn
            ++ List.replicate catalogSize DispatchEvent.complete⟩

/-- Template of the shape https://a.test/ followed by the username. -/
def tmplA : List TmplPiece := [TmplPiece.lit "https://a.test/", TmplPiece.auto]

/-- Concrete status_code descriptor. -/
def dStatus : SiteData := ⟨tmplA, some "status_code", none⟩

/-- Concrete message descriptor with marker "ell". -/
def dMsg : SiteData :=
  ⟨[TmplPiece.lit "https://m.test/", TmplPiece.auto], some "message", some "ell"⟩

/-- Concrete message descriptor whose errorMsg marker is absent. -/
def dBadMsg : SiteData :=
  ⟨[TmplPiece.lit "https://m.test/", TmplPiece.auto], some "message", none⟩

/-- Concrete descriptor whose url template holds a named placeholder, so
str.format with one positional argument raises KeyError. -/
def dNamed : SiteData :=
  ⟨[TmplPiece.lit "https://x.test/", TmplPiece.named "user"], some "status_code", none⟩

/-- Concrete descriptor with an unrecognised errorType discriminator. -/
def dUnknown : SiteData := ⟨tmplA, some "mystery", none⟩

/-- Concrete 200 response: body "hello", headers received at 100 ms,
body fully read at 300 ms. -/
def resp200 : HttpResponse := ⟨200, "hello", "https://a.test/bob", 100, 300⟩

/-- Concrete 404 response. -/
def resp404 : HttpResponse := ⟨404, "hello", "https://a.test/bob", 50, 60⟩

/-- Transport oracle answering every URL with resp200. -/
def okTransport : String → TransportResult := fun _ => TransportResult.ok resp200

/-- Concrete two-site catalog in catalog order. -/
def catW : List (String × SiteData) := [("a", dStatus), ("m", dMsg)]

/-- The same catalog in a different completion order. -/
def seqW : List (String × SiteData) := [("m", dMsg), ("a", dStatus)]

/-- Soundness of the Boolean initial-segment test. -/
theorem charsStart_iff (p : List Char) : ∀ t : List Char, charsStart p t = true ↔ p <+: t := by
  induction p with
  | nil => intro t; simp [charsStart]
  | cons a as ih =>
    intro t
    cases t with
    | nil => simp [charsStart]
    | cons b bs => simp [charsStart, List.cons_prefix_cons, ih]

/-- Soundness of the Boolean substring test: it decides contiguous
containment. -/
theorem hasSubstring_iff (p : List Char) : ∀ t : List Char, hasSubstring p t = true ↔ p <:+: t := by
  intro t
  induction t with
  | nil => simp [hasSubstring, charsStart_iff]
  | cons c cs ih => simp [hasSubstring, charsStart_iff, ih, List.infix_cons_iff]

/-- Counting lemma: the filtered record list has one entry per Found
outcome. -/
theorem length_filterMap_found (l : List ProbeOutcome) :
    (l.filterMap foundRecordOf).length = l.countP isFoundOutcome := by
  induction l with
  | nil => rfl
  | cons o rest ih =>
    cases o <;> simp [foundRecordOf, isFoundOutcome, List.countP_cons, ih]

/-- When no outcome raises, the collection loop returns exactly the Found
records, in order. -/
theorem collectLoop_eq_filterMap (l : List ProbeOutcome) (h : ProbeOutcome.raised ∉ l) :
    collectLoop l = Except.ok (l.filterMap foundRecordOf) := by
  induction l with
  | nil => rfl
  | cons o rest ih =>
    have h1 : ProbeOutcome.raised ∉ rest := fun hr => h (List.mem_cons_of_mem _ hr)
    cases o with
    | raised => exact absurd (List.mem_cons_self _ _) h
    | found r => simp [collectLoop, foundRecordOf, ih h1]
    | notFound => simp [collectLoop, foundRecordOf, ih h1]
    | error => simp [collectLoop, foundRecordOf, ih h1]

/-- Dropping an error outcome anywhere in the completion sequence leaves
the collected results unchanged. -/
theorem collectLoop_append_error (pre post : List ProbeOutcome) :
    collectLoop (pre ++ ProbeOutcome.error :: post) = collectLoop (pre ++ post) := by
  induction pre with
  | nil => simp [collectLoop]
  | cons o rest ih => cases o <;> simp [collectLoop, ih]

/-- Completions never raise the running maximum. -/
theorem maxInflightAux_completes (n : Nat) :
    ∀ cur best : Nat, maxInflightAux (List.replicate n DispatchEvent.complete) cur best = best := by
  induction n with
  | zero => intro cur best; rfl
  | succ m ih =>
    intro cur best
    simpa [List.replicate_succ, maxInflightAux] using ih (cur - 1) best

/-- Running a block of admissions pushes the in-flight count, and the
running maximum, up by the block size. -/
theorem maxInflightAux_spawns (rest : List DispatchEvent) :
    ∀ n cur best : Nat, cur ≤ best →
      maxInflightAux (List.replicate n DispatchEvent.spawn ++ rest) cur best
        = maxInflightAux rest (cur + n) (max best (cur + n)) := by
  intro n
  induction n with
  | zero =>
    intro cur best h
    simp [Nat.max_eq_left h]
  | succ m ih =>
    intro cur best _
    rw [List.replicate_succ, List.cons_append]
    simp only [maxInflightAux]
    rw [ih (cur + 1) (max best (cur + 1)) (Nat.le_max_right _ _)]
    have h1 : cur + 1 + m = cur + (m + 1) := by omega
    rw [h1]
    have h2 : max (max best (cur + 1)) (cur + (m + 1)) = max best (cur + (m + 1)) := by
      rw [Nat.max_assoc, max_eq_right (a := cur + 1) (by omega)]
    rw [h2]

/-- The peak in-flight count of a scan equals the catalog size, whatever
limit was handed to the connector. -/
theorem maxInflight_scheduleModel (n limit : Nat) :
    maxInflight (scheduleModel n limit).events = n := by
  cases n with
  | zero => rfl
  | succ m =>
    simp only [maxInflight, scheduleModel]
    rw [maxInflightAux_spawns _ (m + 1) 0 0 (Nat.le_refl 0), maxInflightAux_completes]
    simp

/-- C1: the claim that in-flight probes never exceed concurrencyLimit is
false at catalog size 21 with the default limit 20 (a limit that is at
least 1): every probe is admitted before any completes, so the peak
in-flight count is 21. -/
theorem concurrency_bound_cex :
    1 ≤ (scheduleModel 21 20).connectorLimit
      ∧ (scheduleModel 21 20).connectorLimit < maxInflight (scheduleModel 21 20).events := by
  decide

/-- C1 amended: the concurrency limit only sizes the transport connection
pool; probe admission is unbounded, and for every catalog size and every
limit the peak number of in-flight probes equals the catalog size. -/
theorem concurrency_admission_unbounded (n limit : Nat) :
    (scheduleModel n limit).connectorLimit = limit
      ∧ maxInflight (scheduleModel n limit).events = n :=
  ⟨rfl, maxInflight_scheduleModel n limit⟩

/-- C2: for any completion order of the catalog, a scan in which no probe
raises returns exactly the Found records (each holding the fields site,
url and elapsed milliseconds), in completion order, with one record per
Found outcome; NotFound and Error outcomes are excluded. -/
theorem run_collects_exactly_found (transport : String → TransportResult) (username : String)
    (catalog completionSeq : List (String × SiteData))
    (hperm : completionSeq.Perm catalog)
    (hok : ∀ p ∈ completionSeq, fetchOutcome transport p.1 p.2 username ≠ ProbeOutcome.raised) :
    run_username_search transport username completionSeq
      = Except.ok ((completionSeq.map
          (fun p => fetchOutcome transport p.1 p.2 username)).filterMap foundRecordOf)
    ∧ ((completionSeq.map
          (fun p => fetchOutcome transport p.1 p.2 username)).filterMap foundRecordOf).length
      = (completionSeq.map
          (fun p => fetchOutcome transport p.1 p.2 username)).countP isFoundOutcome
    ∧ (completionSeq.map
          (fun p => fetchOutcome transport p.1 p.2 username)).countP isFoundOutcome
      = (catalog.map
          (fun p => fetchOutcome transport p.1 p.2 username)).countP isFoundOutcome := by
  refine ⟨?_, length_filterMap_found _,
    (hperm.map (fun p => fetchOutcome transport p.1 p.2 username)).countP_eq _⟩
  apply collectLoop_eq_filterMap
  intro hmem
  rcases List.mem_map.mp hmem with ⟨p, hp, he⟩
  exact hok p hp he

/-- Witness for C2: the two-site catalog probed for bob in reversed
completion order yields exactly the one Found record. -/
theorem run_collects_exactly_found_witness :
    seqW.Perm catW
    ∧ (∀ p ∈ seqW, fetchOutcome okTransport p.1 p.2 "bob" ≠ ProbeOutcome.raised)
    ∧ run_username_search okTransport "bob" seqW
        = Except.ok ((seqW.map
            (fun p => fetchOutcome okTransport p.1 p.2 "bob")).filterMap foundRecordOf)
    ∧ run_username_search okTransport "bob" seqW
        = Except.ok [⟨"a", "https://a.test/bob", 100⟩] := by
  have hperm : seqW.Perm catW := by decide
  have hok : ∀ p ∈ seqW, fetchOutcome okTransport p.1 p.2 "bob" ≠ ProbeOutcome.raised := by
    decide
  refine ⟨hperm, hok,
    (run_collects_exactly_found okTransport "bob" catW seqW hperm hok).1, by rfl⟩

/-- C3: for a status_code descriptor, a final HTTP status of 404
classifies as NotFound and any other final status as Found. -/
theorem statusCode_rule (siteName : String) (d : SiteData) (username u : String)
    (resp : HttpResponse)
    (hty : d.errorType = some "status_code")
    (hurl : buildUrl d.url username = Except.ok u) :
    fetchOutcome (fun _ => TransportResult.ok resp) siteName d username
      = if resp.status = 404 then ProbeOutcome.notFound
        else ProbeOutcome.found ⟨siteName, u, resp.headersAtMillis⟩ := by
  by_cases h : resp.status = 404
  · simp [fetchOutcome, hurl, classify, hty, h]
  · simp [fetchOutcome, hurl, classify, hty, h]

/-- Witness for C3: the concrete status_code descriptor classifies a 404
response as NotFound and a 200 response as Found. -/
theorem statusCode_rule_witness :
    dStatus.errorType = some "status_code"
    ∧ buildUrl dStatus.url "bob" = Except.ok "https://a.test/bob"
    ∧ fetchOutcome (fun _ => TransportResult.ok resp404) "a" dStatus "bob" = ProbeOutcome.notFound
    ∧ fetchOutcome (fun _ => TransportResult.ok resp200) "a" dStatus "bob"
        = ProbeOutcome.found ⟨"a", "https://a.test/bob", 100⟩ := by
  have h1 : dStatus.errorType = some "status_code" := rfl
  have h2 : buildUrl dStatus.url "bob" = Except.ok "https://a.test/bob" := rfl
  refine ⟨h1, h2, ?_, ?_⟩
  · have h := statusCode_rule "a" dStatus "bob" "https://a.test/bob" resp404 h1 h2
    simpa [resp404] using h
  · have h := statusCode_rule "a" dStatus "bob" "https://a.test/bob" resp200 h1 h2
    simpa [resp200] using h

/-- C4: for a message descriptor with marker m, a response body
containing m classifies as NotFound and a body omitting m as Found. -/
theorem bodyMessage_rule (siteName : String) (d : SiteData) (username u m : String)
    (resp : HttpResponse)
    (hty : d.errorType = some "message")
    (hmsg : d.errorMsg = some m)
    (hurl : buildUrl d.url username = Except.ok u) :
    (m.data <:+: resp.text.data →
       fetchOutcome (fun _ => TransportResult.ok resp) siteName d username
         = ProbeOutcome.notFound)
    ∧ (¬ m.data <:+: resp.text.data →
       fetchOutcome (fun _ => TransportResult.ok resp) siteName d username
         = ProbeOutcome.found ⟨siteName, u, resp.headersAtMillis⟩) := by
  constructor
  · intro hin
    have hb : hasSubstring m.data resp.text.data = true := (hasSubstring_iff _ _).mpr hin
    simp [fetchOutcome, hurl, classify, hty, hmsg, hb]
  · intro hout
    have hb : hasSubstring m.data resp.text.data = false := by
      cases h : hasSubstring m.data resp.text.data with
      | false => rfl
      | true => exact absurd ((hasSubstring_iff _ _).mp h) hout
    simp [fetchOutcome, hurl, classify, hty, hmsg, hb]

/-- Witness for C4: the concrete message descriptor with marker ell
classifies the body hello (which contains the marker) as NotFound. -/
theorem bodyMessage_rule_witness :
    dMsg.errorType = some "message"
    ∧ dMsg.errorMsg = some "ell"
    ∧ buildUrl dMsg.url "bob" = Except.ok "https://m.test/bob"
    ∧ "ell".data <:+: resp200.text.data
    ∧ fetchOutcome (fun _ => TransportResult.ok resp200) "m" dMsg "bob"
        = ProbeOutcome.notFound := by
  have h1 : dMsg.errorType = some "message" := rfl
  have h2 : dMsg.errorMsg = some "ell" := rfl
  have h3 : buildUrl dMsg.url "bob" = Except.ok "https://m.test/bob" := rfl
  have h4 : "ell".data <:+: resp200.text.data := by decide
  exact ⟨h1, h2, h3, h4,
    (bodyMessage_rule "m" dMsg "bob" "https://m.test/bob" "ell" resp200 h1 h2 h3).1 h4⟩

/-- C5: a network-level failure is swallowed inside the probe: the
outcome carries verdict Error, the call returns None instead of raising,
and an Error outcome anywhere in the completion sequence leaves the
collected results of the sibling probes unchanged. -/
theorem transport_failure_swallowed (siteName : String) (d : SiteData) (username u : String)
    (hurl : buildUrl d.url username = Except.ok u) :
    fetchOutcome (fun _ => TransportResult.fail) siteName d username = ProbeOutcome.error
    ∧ fetch (fun _ => TransportResult.fail) siteName d username = Except.ok none
    ∧ ∀ pre post : List ProbeOutcome,
        collectLoop (pre ++ ProbeOutcome.error :: post) = collectLoop (pre ++ post) := by
  have h1 : fetchOutcome (fun _ => TransportResult.fail) siteName d username
      = ProbeOutcome.error := by
    simp [fetchOutcome, hurl]
  exact ⟨h1, by simp [fetch, h1], fun pre post => collectLoop_append_error pre post⟩

/-- Witness for C5: a failing transport against the concrete status_code
descriptor returns None, and dropping the Error outcome from a concrete
completion sequence leaves the collected results unchanged. -/
theorem transport_failure_swallowed_witness :
    buildUrl dStatus.url "bob" = Except.ok "https://a.test/bob"
    ∧ fetch (fun _ => TransportResult.fail) "a" dStatus "bob" = Except.ok none
    ∧ collectLoop ([ProbeOutcome.notFound]
        ++ ProbeOutcome.error :: [ProbeOutcome.found ⟨"a", "https://a.test/bob", 100⟩])
      = collectLoop ([ProbeOutcome.notFound]
        ++ [ProbeOutcome.found ⟨"a", "https://a.test/bob", 100⟩]) := by
  have h : buildUrl dStatus.url "bob" = Except.ok "https://a.test/bob" := rfl
  have main := transport_failure_swallowed "a" dStatus "bob" "https://a.test/bob" h
  exact ⟨h, main.2.1, main.2.2 _ _⟩

/-- A raised outcome anywhere in the completion sequence aborts the whole
collection: the exception propagates out of the loop and all partial
results are lost. -/
theorem collectLoop_append_raised (pre post : List ProbeOutcome) :
    collectLoop (pre ++ ProbeOutcome.raised :: post) = Except.error () := by
  induction pre with
  | nil => rfl
  | cons o rest ih => cases o <;> simp [collectLoop, ih]

/-- C6 counterexample: for the descriptor whose url template holds a
named placeholder, substituting the username fails (KeyError), the
exception escapes fetch to the awaiting caller, and the one-site batch is
aborted — contrary to the claim that a failed substitution yields verdict
Error without raising to the caller. -/
theorem url_subst_raises_cex :
    fetch (fun _ => TransportResult.fail) "x" dNamed "bob" = Except.error ()
    ∧ run_username_search (fun _ => TransportResult.fail) "bob" [("x", dNamed)]
        = Except.error () :=
  ⟨rfl, rfl⟩

/-- C6 amended: when substitution succeeds but the resulting URL is
invalid — the transport raises on it — the failure is swallowed and the
probe returns None with verdict Error, nothing is raised to the caller;
but when the substitution itself fails, the exception propagates out of
fetch and a raised outcome anywhere in the completion sequence aborts the
batch. -/
theorem url_subst_amended (siteName : String) (d : SiteData) (username u : String)
    (transport : String → TransportResult)
    (hurl : buildUrl d.url username = Except.ok u)
    (hbad : transport u = TransportResult.fail) :
    fetch transport siteName d username = Except.ok none
    ∧ fetchOutcome transport siteName d username = ProbeOutcome.error
    ∧ (∀ (s2 : String) (d2 : SiteData) (un2 : String),
        buildUrl d2.url un2 = Except.error () →
          fetch transport s2 d2 un2 = Except.error ())
    ∧ ∀ pre post : List ProbeOutcome,
        collectLoop (pre ++ ProbeOutcome.raised :: post) = Except.error () := by
  have hout : fetchOutcome transport siteName d username = ProbeOutcome.error := by
    simp [fetchOutcome, hurl, hbad]
  refine ⟨by simp [fetch, hout], hout, ?_, fun pre post => collectLoop_append_raised pre post⟩
  intro s2 d2 un2 h
  simp [fetch, fetchOutcome, h]

/-- Witness for C6 amended: a transport that rejects every URL makes the
concrete status_code probe return None, while the named-placeholder
descriptor makes fetch raise. -/
theorem url_subst_amended_witness :
    buildUrl dStatus.url "bob" = Except.ok "https://a.test/bob"
    ∧ (fun _ : String => TransportResult.fail) "https://a.test/bob" = TransportResult.fail
    ∧ fetch (fun _ => TransportResult.fail) "a" dStatus "bob" = Except.ok none
    ∧ buildUrl dNamed.url "bob" = Except.error ()
    ∧ fetch (fun _ => TransportResult.fail) "n" dNamed "bob" = Except.error () := by
  have h1 : buildUrl dStatus.url "bob" = Except.ok "https://a.test/bob" := rfl
  have h2 : (fun _ : String => TransportResult.fail) "https://a.test/bob"
      = TransportResult.fail := rfl
  have main := url_subst_amended "a" dStatus "bob" "https://a.test/bob"
    (fun _ => TransportResult.fail) h1 h2
  exact ⟨h1, h2, main.1, rfl, main.2.2.1 "n" dNamed "bob" rfl⟩

/-- C7: the progress loop emits a snapshot only at completion counts that
are multiples of 10, so a 5-site scan emits no snapshot at all — in
particular the final snapshot (5, 5) is never delivered — and a 15-site
scan emits only (10, 15), never the final (15, 15); the final snapshot
appears exactly when the total is a multiple of 10, as at total 20. -/
theorem final_snapshot_missing :
    progressSnapshots 5 = []
    ∧ progressSnapshots 15 = [(10, 15)]
    ∧ (15, 15) ∉ progressSnapshots 15
    ∧ progressSnapshots 20 = [(10, 20), (20, 20)] := by
  decide

/-- C8 counterexample: the message descriptor lacking its errorMsg
auxiliary field is not skipped — fetch still issues the HTTP request for
its built URL — and the classification then raises inside the try block,
leaving the probe with verdict Error rather than a skip. -/
theorem marker_missing_cex :
    requestsMade dBadMsg "bob" = ["https://m.test/bob"]
    ∧ fetchOutcome (fun _ => TransportResult.ok resp200) "m" dBadMsg "bob"
        = ProbeOutcome.error :=
  ⟨rfl, rfl⟩

/-- C8 amended: a message descriptor whose errorMsg auxiliary field is
absent is probed rather than skipped: the request is still issued, the
classification raise is swallowed so the probe returns None with verdict
Error and can never yield Found, and the batch is unaffected — the
collected results are exactly those without the Error outcome, so the
remaining descriptors are still probed and the scan completes. -/
theorem marker_missing_probed (siteName : String) (d : SiteData) (username u : String)
    (resp : HttpResponse)
    (hty : d.errorType = some "message")
    (hmsg : d.errorMsg = none)
    (hurl : buildUrl d.url username = Except.ok u) :
    requestsMade d username = [u]
    ∧ fetchOutcome (fun _ => TransportResult.ok resp) siteName d username = ProbeOutcome.error
    ∧ fetch (fun _ => TransportResult.ok resp) siteName d username = Except.ok none
    ∧ ∀ pre post : List ProbeOutcome,
        collectLoop (pre ++ ProbeOutcome.error :: post) = collectLoop (pre ++ post) := by
  have hreq : requestsMade d username = [u] := by simp [requestsMade, hurl]
  have hout : fetchOutcome (fun _ => TransportResult.ok resp) siteName d username
      = ProbeOutcome.error := by
    simp [fetchOutcome, hurl, classify, hty, hmsg]
  exact ⟨hreq, hout, by simp [fetch, hout],
    fun pre post => collectLoop_append_error pre post⟩

/-- Witness for C8 amended at the concrete marker-less message
descriptor. -/
theorem marker_missing_probed_witness :
    dBadMsg.errorType = some "message"
    ∧ dBadMsg.errorMsg = none
    ∧ buildUrl dBadMsg.url "bob" = Except.ok "https://m.test/bob"
    ∧ requestsMade dBadMsg "bob" = ["https://m.test/bob"]
    ∧ fetch (fun _ => TransportResult.ok resp200) "m" dBadMsg "bob" = Except.ok none := by
  have h1 : dBadMsg.errorType = some "message" := rfl
  have h2 : dBadMsg.errorMsg = none := rfl
  have h3 : buildUrl dBadMsg.url "bob" = Except.ok "https://m.test/bob" := rfl
  have main := marker_missing_probed "m" dBadMsg "bob" "https://m.test/bob" resp200 h1 h2 h3
  exact ⟨h1, h2, h3, main.1, main.2.2.1⟩

/-- C9 counterexample: against a response whose headers arrive at 100 ms
but whose body is only fully read at 300 ms, the Found record stores
latency 100 — line 49 computes the elapsed time as soon as session.get
returns, before the body read on line 51 — not the 300 ms at which the
full response body has been read, as the claim requires. -/
theorem latency_headers_cex :
    fetchOutcome okTransport "a" dStatus "bob"
      = ProbeOutcome.found ⟨"a", "https://a.test/bob", resp200.headersAtMillis⟩
    ∧ resp200.headersAtMillis = 100
    ∧ resp200.bodyDoneAtMillis = 300
    ∧ resp200.headersAtMillis ≠ resp200.bodyDoneAtMillis := by
  exact ⟨rfl, rfl, rfl, by decide⟩

/-- C9 amended: every Found record's elapsed-milliseconds value equals
the mark at which the response headers were received (session.get
returning), not the mark at which the full body read completed. -/
theorem latency_measures_headers (transport : String → TransportResult)
    (siteName : String) (d : SiteData) (username u : String)
    (resp : HttpResponse) (r : FoundRecord)
    (hurl : buildUrl d.url username = Except.ok u)
    (ht : transport u = TransportResult.ok resp)
    (hf : fetchOutcome transport siteName d username = ProbeOutcome.found r) :
    r.latencyMillis = resp.headersAtMillis := by
  simp only [fetchOutcome, hurl, ht] at hf
  cases hc : classify d u resp with
  | error e => rw [hc] at hf; simp at hf
  | ok b =>
    cases b with
    | false => rw [hc] at hf; simp at hf
    | true =>
      rw [hc] at hf
      simp at hf
      subst hf
      rfl

/-- Witness for C9 amended at the concrete Found probe. -/
theorem latency_measures_headers_witness :
    buildUrl dStatus.url "bob" = Except.ok "https://a.test/bob"
    ∧ okTransport "https://a.test/bob" = TransportResult.ok resp200
    ∧ fetchOutcome okTransport "a" dStatus "bob"
        = ProbeOutcome.found ⟨"a", "https://a.test/bob", 100⟩
    ∧ (FoundRecord.mk "a" "https://a.test/bob" 100).latencyMillis
        = resp200.headersAtMillis := by
  have h1 : buildUrl dStatus.url "bob" = Except.ok "https://a.test/bob" := rfl
  have h2 : okTransport "https://a.test/bob" = TransportResult.ok resp200 := rfl
  have h3 : fetchOutcome okTransport "a" dStatus "bob"
      = ProbeOutcome.found ⟨"a", "https://a.test/bob", 100⟩ := rfl
  exact ⟨h1, h2, h3, latency_measures_headers okTransport "a" dStatus "bob"
    "https://a.test/bob" resp200 ⟨"a", "https://a.test/bob", 100⟩ h1 h2 h3⟩

/-- C10: the probe's public value collapses the non-Found cases to the
same None: a descriptor whose errorType discriminator is missing or
unrecognised returns None for every transport (it can never yield Found),
a status_code descriptor seeing a 404 returns None, and a probe whose
transport fails returns None — indistinguishable at the public
interface. -/
theorem fetch_public_collapse
    (siteName : String) (dU dN dE : SiteData) (username uU uN uE : String)
    (transport : String → TransportResult) (resp : HttpResponse)
    (hU : buildUrl dU.url username = Except.ok uU)
    (h1 : dU.errorType ≠ some "status_code")
    (h2 : dU.errorType ≠ some "message")
    (h3 : dU.errorType ≠ some "response_url")
    (hN : buildUrl dN.url username = Except.ok uN)
    (hNty : dN.errorType = some "status_code")
    (hN404 : resp.status = 404)
    (hE : buildUrl dE.url username = Except.ok uE) :
    fetch transport siteName dU username = Except.ok none
    ∧ fetch (fun _ => TransportResult.ok resp) siteName dN username = Except.ok none
    ∧ fetch (fun _ => TransportResult.fail) siteName dE username = Except.ok none := by
  refine ⟨?_, ?_, ?_⟩
  · cases htr : transport uU with
    | ok r2 => simp [fetch, fetchOutcome, hU, htr, classify, h1, h2, h3]
    | fail => simp [fetch, fetchOutcome, hU, htr]
  · simp [fetch, fetchOutcome, hN, classify, hNty, hN404]
  · simp [fetch, fetchOutcome, hE]

/-- Witness for C10: the unknown-discriminator descriptor, a 404 against
the status_code descriptor, and a failing transport all return None. -/
theorem fetch_public_collapse_witness :
    buildUrl dUnknown.url "bob" = Except.ok "https://a.test/bob"
    ∧ dUnknown.errorType ≠ some "status_code"
    ∧ dUnknown.errorType ≠ some "message"
    ∧ dUnknown.errorType ≠ some "response_url"
    ∧ resp404.status = 404
    ∧ fetch okTransport "a" dUnknown "bob" = Except.ok none
    ∧ fetch (fun _ => TransportResult.ok resp404) "a" dStatus "bob" = Except.ok none
    ∧ fetch (fun _ => TransportResult.fail) "a" dStatus "bob" = Except.ok none := by
  have h0 : buildUrl dUnknown.url "bob" = Except.ok "https://a.test/bob" := rfl
  have h1 : dUnknown.errorType ≠ some "status_code" := by decide
  have h2 : dUnknown.errorType ≠ some "message" := by decide
  have h3 : dUnknown.errorType ≠ some "response_url" := by decide
  have h4 : resp404.status = 404 := rfl
  have hs : buildUrl dStatus.url "bob" = Except.ok "https://a.test/bob" := rfl
  have main := fetch_public_collapse "a" dUnknown dStatus dStatus "bob"
    "https://a.test/bob" "https://a.test/bob" "https://a.test/bob"
    okTransport resp404 h0 h1 h2 h3 hs rfl h4 hs
  exact ⟨h0, h1, h2, h3, h4, main.1, main.2.1, main.2.2⟩
